import Mathlib

/-!
Shallow embedding of the after-hours dental call-handling core
(urgency classifier, intake state machine, response generator,
notification dispatch gating) from the repository source.

Strings are modelled as `List Char`; JS `String.prototype.includes`,
`toLowerCase` and `trim` are embedded over that representation
(ASCII whitespace set; all lexicon data and test inputs are ASCII).
-/

set_option maxRecDepth 4096

namespace Dental

/-- Character-list model of JS strings. -/
abbrev Str := List Char

/-- Convert a Lean string literal to the character-list model. -/
def str (s : String) : Str := s.data

/-- ASCII whitespace, the subset of JS `\s` relevant to this code base. -/
def isWspace (c : Char) : Bool :=
  c == ' ' || c == '\t' || c == '\n' || c == '\r' || c == '\x0b' || c == '\x0c'

/-- JS `toLowerCase` (ASCII). -/
def lowerStr (s : Str) : Str := s.map Char.toLower

/-- JS `trim`: drop whitespace from both ends. -/
def trimStr (s : Str) : Str :=
  ((s.dropWhile isWspace).reverse.dropWhile isWspace).reverse

/-- Does the haystack begin with the needle?  (`startsList needle hay`.) -/
def startsList : Str → Str → Bool
  | [], _ => true
  | _ :: _, [] => false
  | a :: as, b :: bs => a == b && startsList as bs

/-- JS `hay.includes(needle)`: substring occurrence. -/
def containsSub (hay needle : Str) : Bool :=
  match hay with
  | [] => startsList needle []
  | _ :: rest => startsList needle hay || containsSub rest needle

/-- The `DENTAL_EMERGENCY_KEYWORDS` lexicon object from the source. -/
structure Lexicon where
  severe_pain : List Str
  bleeding : List Str
  swelling : List Str
  infection : List Str
  trauma : List Str
  post_op : List Str
  nerve_issues : List Str
  breathing_difficulty : List Str
  systemic_symptoms : List Str
  explicit_emergency : List Str

def DENTAL_EMERGENCY_KEYWORDS : Lexicon where
  severe_pain := List.map str [
    "severe pain", "excruciating pain", "unbearable pain", "extreme pain",
    "worst pain", "pain scale 10", "can\x27t sleep", "crying", "screaming",
    "sharp pain", "stabbing pain", "pulsating pain", "throbbing pain",
    "constant pain", "non-stop pain", "pain all night", "pain for days",
    "worst pain ever", "can\x27t eat", "can\x27t drink", "can\x27t talk",
    "pain medication not working", "over the counter not helping",
    "toothache", "dental pain", "oral pain", "jaw pain", "facial pain"]
  bleeding := List.map str [
    "bleeding", "blood", "bleeding gums", "bleeding tooth", "heavy bleeding",
    "won\x27t stop bleeding", "mouth bleeding", "gums bleeding", "bleeding mouth",
    "blood in mouth", "bleeding after extraction", "bleeding after surgery",
    "continuous bleeding", "profuse bleeding", "bleeding for hours",
    "blood when brushing", "blood when flossing", "gums bleeding easily",
    "bleeding socket", "post-operative bleeding", "surgical bleeding"]
  swelling := List.map str [
    "swelling", "swollen", "face swollen", "cheek swollen", "jaw swollen",
    "eye swelling", "facial swelling", "can\x27t open mouth", "mouth swollen",
    "gums swollen", "tooth area swollen", "cheek puffy", "face puffy",
    "jaw locked", "can\x27t chew", "can\x27t swallow", "difficulty breathing",
    "swollen lymph nodes", "swollen under jaw", "swollen around tooth",
    "facial inflammation", "oral swelling", "dental swelling"]
  infection := List.map str [
    "infection", "infected", "pus", "abscess", "fever", "hot to touch",
    "red and swollen", "throbbing", "infected tooth", "gum infection",
    "dental abscess", "tooth abscess", "gum abscess", "oral infection",
    "bacterial infection", "viral infection", "fungal infection",
    "bad taste in mouth", "bad breath", "foul odor", "drainage",
    "white spots", "yellow spots", "black spots", "tooth decay",
    "cavity", "caries", "root canal infection", "periodontal infection"]
  trauma := List.map str [
    "knocked out tooth", "broken tooth", "cracked tooth", "tooth fell out",
    "accident", "hit in face", "sports injury", "fell", "car accident",
    "tooth knocked loose", "tooth moved", "tooth displaced", "tooth chipped",
    "tooth fractured", "crown fell off", "filling fell out", "bridge broken",
    "dental work broken", "dental work loose", "dental work fell out",
    "impact injury", "blow to face", "fall on face", "dental trauma",
    "oral injury", "mouth injury", "jaw injury", "facial injury"]
  post_op := List.map str [
    "after surgery", "post surgery", "after extraction", "wisdom teeth",
    "dry socket", "stitches", "complications", "healing problems",
    "post-operative pain", "surgical site infection", "surgical complications",
    "extraction site", "surgical site", "sutures", "stitches loose",
    "stitches fell out", "bleeding after surgery", "pain after surgery",
    "swelling after surgery", "infection after surgery", "dry socket pain",
    "alveolar osteitis", "post-extraction complications", "surgical wound",
    "healing not normal", "delayed healing", "abnormal healing"]
  nerve_issues := List.map str [
    "nerve pain", "tooth nerve", "dental nerve", "nerve exposed",
    "sensitive to hot", "sensitive to cold", "sensitive to pressure",
    "shooting pain", "electric shock pain", "nerve damage", "pulpitis",
    "irreversible pulpitis", "reversible pulpitis", "nerve inflammation",
    "dental pulp", "tooth pulp", "pulp exposure", "nerve exposure"]
  breathing_difficulty := List.map str [
    "can\x27t breathe", "difficulty breathing", "breathing problems",
    "swollen throat", "throat swelling", "airway obstruction",
    "trouble swallowing", "can\x27t swallow", "choking sensation",
    "tight throat", "throat tightness", "breathing through mouth only"]
  systemic_symptoms := List.map str [
    "fever", "high temperature", "chills", "sweating", "night sweats",
    "fatigue", "weakness", "dizziness", "lightheaded", "nausea",
    "vomiting", "headache", "migraine", "ear pain", "earache",
    "sinus pain", "sinus pressure", "facial pressure", "eye pain"]
  explicit_emergency := List.map str [
    "emergency", "it\x27s an emergency", "this is an emergency", "urgent", "urgent care",
    "right now", "immediately", "can\x27t wait", "need help now", "emergency room",
    "dental emergency", "oral emergency", "urgent dental care", "emergency dental",
    "critical", "life threatening", "serious", "severe", "extreme",
    "need doctor now", "need dentist now", "can\x27t wait until tomorrow",
    "emergency appointment", "urgent appointment", "same day appointment"]

def NON_EMERGENCY_KEYWORDS : List Str := List.map str [
  "appointment", "schedule", "reschedule", "cancel", "change appointment",
  "billing", "insurance", "payment", "cost", "price", "quote",
  "cleaning", "check-up", "routine", "mild discomfort", "slight pain",
  "question", "information", "hours", "location", "directions"]

def EMOTIONAL_DISTRESS_INDICATORS : List Str := List.map str [
  "crying", "scared", "terrified", "panic", "help me", "please help",
  "desperate", "worried sick", "can\x27t take it", "emergency room",
  "sobbing", "hysterical", "freaking out", "losing my mind", "going crazy",
  "can\x27t handle this", "breaking down", "overwhelmed", "distressed",
  "anxious", "nervous", "fearful", "afraid", "worried", "concerned",
  "stressed", "tense", "agitated", "irritable", "frustrated", "angry",
  "desperate", "urgent", "critical", "serious", "severe", "extreme",
  "worst ever", "never felt like this", "unbearable", "intolerable",
  "can\x27t function", "can\x27t work", "can\x27t sleep", "can\x27t eat",
  "need immediate help", "need help now", "can\x27t wait", "emergency",
  "urgent care", "right now", "immediately", "asap", "stat"]

/-- Urgency tiers returned by the classifier. -/
inductive UrgencyType
  | emergency
  | uncertain
  | non_emergency
deriving DecidableEq, Repr

/-- `detectEmotionalTone` from the source (lowercases, no trim). -/
def detectEmotionalTone (message : Str) : Str :=
  let messageText := lowerStr message
  if EMOTIONAL_DISTRESS_INDICATORS.any (fun ind => containsSub messageText ind) then
    str "High distress - patient appears very upset or panicked"
  else if containsSub messageText (str "pain") || containsSub messageText (str "hurt") then
    str "Pain-related distress - patient experiencing discomfort"
  else if containsSub messageText (str "worried") || containsSub messageText (str "concerned") then
    str "Concerned but composed - patient seeking reassurance"
  else
    str "Calm and composed - routine inquiry tone"

/-- `message.toLowerCase().trim()` at the top of `classifyUrgency`. -/
def messageTextOf (message : Str) : Str := trimStr (lowerStr message)

/-- `category.filter(keyword => messageText.includes(keyword))`. -/
def catMatches (cat : List Str) (t : Str) : List Str :=
  cat.filter (fun kw => containsSub t kw)

/-- Score contribution of one category block
(`if (m.length > 0) urgencyScore += m.length * w`). -/
def catScore (cat : List Str) (w : Int) (t : Str) : Int :=
  if (catMatches cat t).length > 0 then w * (catMatches cat t).length else 0

/-- Reason pushed by one category block, in source order. -/
def catReason (cat : List Str) (r : String) (t : Str) : List String :=
  if (catMatches cat t).length > 0 then [r] else []

/-- Total additive urgency score of `classifyUrgency`, category blocks in
source order (explicit, severe pain, bleeding, swelling, infection, trauma,
post-op, distress, minus non-emergency deduction). -/
def rawScore (message : Str) : Int :=
  let t := messageTextOf message
  catScore DENTAL_EMERGENCY_KEYWORDS.explicit_emergency 50 t
    + catScore DENTAL_EMERGENCY_KEYWORDS.severe_pain 30 t
    + catScore DENTAL_EMERGENCY_KEYWORDS.bleeding 25 t
    + catScore DENTAL_EMERGENCY_KEYWORDS.swelling 25 t
    + catScore DENTAL_EMERGENCY_KEYWORDS.infection 25 t
    + catScore DENTAL_EMERGENCY_KEYWORDS.trauma 30 t
    + catScore DENTAL_EMERGENCY_KEYWORDS.post_op 20 t
    + catScore EMOTIONAL_DISTRESS_INDICATORS 15 t
    + catScore NON_EMERGENCY_KEYWORDS (-10) t

/-- The ordered `reasons` list of `classifyUrgency`. -/
def reasonsOf (message : Str) : List String :=
  let t := messageTextOf message
  catReason DENTAL_EMERGENCY_KEYWORDS.explicit_emergency "Explicit emergency declaration detected" t
    ++ catReason DENTAL_EMERGENCY_KEYWORDS.severe_pain "Severe pain indicators detected" t
    ++ catReason DENTAL_EMERGENCY_KEYWORDS.bleeding "Bleeding indicators detected" t
    ++ catReason DENTAL_EMERGENCY_KEYWORDS.swelling "Swelling indicators detected" t
    ++ catReason DENTAL_EMERGENCY_KEYWORDS.infection "Infection indicators detected" t
    ++ catReason DENTAL_EMERGENCY_KEYWORDS.trauma "Dental trauma detected" t
    ++ catReason DENTAL_EMERGENCY_KEYWORDS.post_op "Post-operative complications detected" t
    ++ catReason EMOTIONAL_DISTRESS_INDICATORS "Emotional distress detected" t
    ++ catReason NON_EMERGENCY_KEYWORDS "Non-emergency indicators detected" t

/-- `generateClassificationSummary` from the source. -/
def generateClassificationSummary (message : Str) (classification : UrgencyType)
    (reasons : List String) : Str :=
  let px : String :=
    match classification with
    | .emergency => "EMERGENCY DETECTED: Patient reporting"
    | .uncertain => "UNCLEAR URGENCY: Patient mentioned"
    | .non_emergency => "NON-EMERGENCY: Patient requesting"
  str px ++ str " " ++ message.take 100
    ++ (if message.length > 100 then str "..." else [])
    ++ str ". Classification based on: "
    ++ str (String.intercalate ", " reasons) ++ str "."

/-- Result record of `classifyUrgency`. -/
structure Classification where
  type : UrgencyType
  confidence : Int
  reasons : List String
  summary : Str
  emotionalTone : Str
deriving DecidableEq, Repr

/-- `classifyUrgency` from the source: keyword scoring with thresholds
(score 40 or any explicit-emergency match gives emergency; else score 20
or an empty reasons list gives uncertain; else non-emergency), confidence
clamped to [0, 100]. -/
def classifyUrgency (message : Str) : Classification :=
  let t := messageTextOf message
  let urgencyScore := rawScore message
  let reasons := reasonsOf message
  let cls : UrgencyType :=
    if urgencyScore ≥ 40 ∨ (catMatches DENTAL_EMERGENCY_KEYWORDS.explicit_emergency t).length > 0 then
      .emergency
    else if urgencyScore ≥ 20 ∨ reasons.length = 0 then
      .uncertain
    else
      .non_emergency
  { type := cls
    confidence := min 100 (max 0 urgencyScore)
    reasons := reasons
    summary := generateClassificationSummary message cls reasons
    emotionalTone := detectEmotionalTone message }

/-! Regex matchers of the source, specialized to its fixed patterns. -/

/-- Character class `[a-zA-Z\s]` of the name patterns. -/
def isNameClass (c : Char) : Bool := c.isAlpha || isWspace c

/-- Separator class `[-.\s]` of the phone pattern. -/
def isSepChar (c : Char) : Bool := c == '-' || c == '.' || isWspace c

/-- Class of `.` (any character but a line terminator). -/
def isDotChar (c : Char) : Bool := !(c == '\n' || c == '\r')

/-- Case-insensitive literal match at the start of `s` (a `/i` literal). -/
def litAt (lit : Str) (s : Str) : Bool := lowerStr (s.take lit.length) == lit

/-- Leftmost case-insensitive occurrence of a bare literal pattern; returns
the matched slice in original case (regex `match[0]`). -/
def findLitCI (lit : Str) : Str → Option Str
  | [] => if litAt lit [] then some [] else none
  | c :: rest =>
      if litAt lit (c :: rest) then some ((c :: rest).take lit.length)
      else findLitCI lit rest

/-- Leftmost match of "case-insensitive literal then `([a-zA-Z\s]+)`";
returns the capture (regex `match[1]`). -/
def findLitCapture (lit : Str) : Str → Option Str
  | [] => none
  | c :: rest =>
      let s := c :: rest
      let run := (s.drop lit.length).takeWhile isNameClass
      if litAt lit s && !run.isEmpty then some run else findLitCapture lit rest

/-- Leftmost match of "case-insensitive literal then `(.+)`"; returns the
full match (regex `match[0]`): the literal plus the greedy rest of line. -/
def findLitDotPlus (lit : Str) : Str → Option Str
  | [] => none
  | c :: rest =>
      let s := c :: rest
      let run := (s.drop lit.length).takeWhile isDotChar
      if litAt lit s && !run.isEmpty then some (s.take lit.length ++ run)
      else findLitDotPlus lit rest

/-- Tail `\s+([a-zA-Z\s]+)` of the intake name pattern.  Greedy `\s+` takes
the whole whitespace run; if the capture class run after it is empty, the
engine backtracks one whitespace character into the capture (possible only
when the run has length at least two). -/
def wsThenNameCapture (rest : Str) : Option Str :=
  let k := (rest.takeWhile isWspace).length
  if k = 0 then none
  else
    let run := (rest.drop k).takeWhile isNameClass
    if !run.isEmpty then some run
    else if 2 ≤ k then some ((rest.take k).drop (k - 1))
    else none

/-- Alternatives of `(?:my name is|i'm|this is)` in source order. -/
def intakeNameAlts : List Str := [str "my name is", str "i\x27m", str "this is"]

/-- Leftmost match of `(?:my name is|i'm|this is)\s+([a-zA-Z\s]+)/i`;
returns the capture (`match[1]`). -/
def intakeNameCapture : Str → Option Str
  | [] => none
  | c :: rest =>
      match intakeNameAlts.findSome? (fun alt =>
        if litAt alt (c :: rest) then wsThenNameCapture ((c :: rest).drop alt.length)
        else none) with
      | some cap => some cap
      | none => intakeNameCapture rest

/-- Anchored `^([a-zA-Z\s]+)$`: the whole utterance must be letters and
whitespace; the capture is the whole utterance. -/
def anchoredNameMatch (msg : Str) : Option Str :=
  if !msg.isEmpty && msg.all isNameClass then some msg else none

/-- The name stored by the `name` intake step: `match[1].trim()` of the
first matching name pattern, else the trimmed raw utterance (the anchored
pattern's capture is the whole utterance, so both fallbacks trim it). -/
def intakeNameOf (msg : Str) : Str :=
  match intakeNameCapture msg with
  | some cap => trimStr cap
  | none =>
    match anchoredNameMatch msg with
    | some whole => trimStr whole
    | none => trimStr msg

/-- Greedy optional single character of a class with backtracking (`X?`),
continuation style, returning the total matched length. -/
def optChar (p : Char → Bool) (k : Str → Option Nat) : Str → Option Nat
  | [] => k []
  | c :: rest =>
      if p c then
        match k rest with
        | some n => some (n + 1)
        | none => k (c :: rest)
      else k (c :: rest)

/-- Exactly `n` digits (`[0-9]{n}`), continuation style. -/
def digitsThen : Nat → (Str → Option Nat) → Str → Option Nat
  | 0, k, s => k s
  | _ + 1, _, [] => none
  | n + 1, k, c :: rest =>
      if c.isDigit then
        match digitsThen n k rest with
        | some m => some (m + 1)
        | none => none
      else none

/-- Match of `(\+?1?[-.\s]?)?\(?([0-9]{3})\)?[-.\s]?([0-9]{3})[-.\s]?([0-9]{4})`
anchored at the current position, returning the matched length. -/
def matchPhoneAt : Str → Option Nat :=
  optChar (fun c => c == '+')
    (optChar (fun c => c == '1')
      (optChar isSepChar
        (optChar (fun c => c == '(')
          (digitsThen 3
            (optChar (fun c => c == ')')
              (optChar isSepChar
                (digitsThen 3
                  (optChar isSepChar
                    (digitsThen 4 (fun _ => some 0))))))))))

/-- Leftmost phone-regex match; returns the matched text (`match[0]`). -/
def phoneScan : Str → Option Str
  | [] => none
  | c :: rest =>
      match matchPhoneAt (c :: rest) with
      | some n => some ((c :: rest).take n)
      | none => phoneScan rest

/-- `ExtractedInfo` of `extractCallInformation` (the always-null
`urgencyConfirmed` field is omitted; nothing in the source ever sets it). -/
structure ExtractedInfo where
  name : Option Str := none
  phone : Option Str := none
  description : Str := []
  preferredCallbackTime : Option Str := none
deriving DecidableEq, Repr

/-- `extractCallInformation` from the source: first matching name pattern
wins, leftmost phone match, first matching callback-time pattern wins
(storing `match[0]`). -/
def extractCallInformation (message : Str) (_classification : UrgencyType) : ExtractedInfo :=
  let name : Option Str :=
    match findLitCapture (str "my name is ") message with
    | some c => some (trimStr c)
    | none =>
      match findLitCapture (str "this is ") message with
      | some c => some (trimStr c)
      | none =>
        match findLitCapture (str "i\x27m ") message with
        | some c => some (trimStr c)
        | none => none
  let pct : Option Str :=
    match findLitDotPlus (str "call me back ") message with
    | some m => some m
    | none =>
      match findLitDotPlus (str "prefer ") message with
      | some m => some m
      | none =>
        match findLitCI (str "morning") message with
        | some m => some m
        | none =>
          match findLitCI (str "afternoon") message with
          | some m => some m
          | none =>
            match findLitCI (str "evening") message with
            | some m => some m
            | none => none
  { name := name
    phone := phoneScan message
    description := message
    preferredCallbackTime := pct }

/-! Conversation state, response generator, intake state machine. -/

/-- `conversationState.mode`: absent, `'emergency_intake'`, or `'completed'`. -/
inductive Mode
  | idle
  | emergency_intake
  | completed
deriving DecidableEq, Repr

/-- Intake steps `name → phone → description → complete`. -/
inductive Step
  | name
  | phone
  | description
  | complete
deriving DecidableEq, Repr

/-- Position of a step in the intake order. -/
def stepNat : Step → Nat
  | .name => 0
  | .phone => 1
  | .description => 2
  | .complete => 3

/-- The running `collectedInfo` record (fields absent until collected). -/
structure CollectedInfo where
  name : Option Str := none
  phone : Option Str := none
  description : Option Str := none
  emotionalTone : Option Str := none
deriving DecidableEq, Repr

/-- `CallConversationState`: `{}` at call start (all fields absent). -/
structure ConvState where
  mode : Mode := .idle
  step : Option Step := none
  collectedInfo : Option CollectedInfo := none
deriving DecidableEq, Repr

/-- The conversation state `generateReceptionistResponse` attaches to an
emergency response: intake mode, step `name`, empty collected info. -/
def intakeStartState : ConvState :=
  { mode := .emergency_intake, step := some .name, collectedInfo := some {} }

/-- Response record of `generateReceptionistResponse` (`ttsOptions`, pure
voice-tuning floats, are omitted; the spec marks them a tuning knob, not a
correctness contract). -/
structure RespConfig where
  rtype : String
  message : Str
  action : String
  priority : String
  convState : Option ConvState := none
deriving DecidableEq, Repr

/-- JS `namePrefix`: `"{name}, "` when a nonempty name was extracted. -/
def nameTagOf (name : Option Str) : Str :=
  match name with
  | some n => if n.isEmpty then [] else n ++ str ", "
  | none => []

/-- `generateReceptionistResponse` from the source. -/
def generateReceptionistResponse (classification : Classification)
    (extractedInfo : ExtractedInfo) (practiceName : Str) : RespConfig :=
  let nameTag := nameTagOf extractedInfo.name
  match classification.type with
  | .emergency =>
      { rtype := "emergency_intake"
        message := str "I understand this is a dental emergency. I need to collect some quick information before connecting you to our on-call doctor. First, can you please tell me your full name?"
        action := "start_emergency_intake"
        priority := "immediate"
        convState := some intakeStartState }
  | .uncertain =>
      { rtype := "clarification"
        message := nameTag ++ str "thanks for explaining. Just to be sure, would you say this needs urgent attention right now, or is this something we can address with a regular appointment?"
        action := "request_clarification"
        priority := "medium" }
  | .non_emergency =>
      { rtype := "non_emergency"
        message := nameTag ++ str "thanks for calling " ++ practiceName ++ str ". I can help you schedule an appointment or provide information. What would you like to do?"
        action := "schedule_appointment"
        priority := "normal" }

/-- Environment configuration read by the notification helpers
(`ENABLE_SMS_NOTIFICATIONS`, `PRIMARY_EMERGENCY_DOCTOR`, practice name). -/
structure Env where
  smsEnabled : Bool
  emergencyDoctorPhone : Option Str
  practiceName : Str

/-- External side-effect events dispatched by the call flow. -/
inductive Notif
  | staffEmail
  | doctorSMSFinal
  | doctorSMSImmediate
  | logEntry
deriving DecidableEq, Repr

/-- Doctor-facing channels: SMS or email to practice staff or the on-call
doctor, as opposed to compliance log entries. -/
def doctorFacing : Notif → Bool
  | .staffEmail => true
  | .doctorSMSFinal => true
  | .doctorSMSImmediate => true
  | .logEntry => false

/-- JS string interpolation of a possibly-undefined value. -/
def jsShow (v : Option Str) : Str := v.getD (str "undefined")

/-- Output of the intake `switch` block. -/
structure IntakeOut where
  nextStep : Step
  message : Str
  completed : Bool
  collectedInfo : CollectedInfo
deriving DecidableEq, Repr

/-- The `switch (step)` body of `handleEmergencyIntake`.  The `complete`
step has no case: the state is left untouched with an empty message. -/
def intakeSwitch (patientMessage callerPhone : Str) (step : Step)
    (ci : CollectedInfo) : IntakeOut :=
  match step with
  | .name =>
      let nm := intakeNameOf patientMessage
      { nextStep := .phone
        message := str "Thank you " ++ nm ++ str ". Can you please confirm your callback number?"
        completed := false
        collectedInfo := { ci with name := some nm } }
  | .phone =>
      let ph := (phoneScan patientMessage).getD callerPhone
      { nextStep := .description
        message := str "Got it. Now please briefly describe your dental emergency - what\x27s happening?"
        completed := false
        collectedInfo := { ci with phone := some ph } }
  | .description =>
      { nextStep := .complete
        message := str "Thank you " ++ jsShow ci.name ++ str ". I have all the information I need. I\x27ll get the on-call doctor on the line now. Please stay on the line."
        completed := true
        collectedInfo := { ci with description := some patientMessage,
                                   emotionalTone := some (detectEmotionalTone patientMessage) } }
  | .complete =>
      { nextStep := .complete
        message := []
        completed := false
        collectedInfo := ci }

/-- Result record of `handleEmergencyIntake`. -/
structure IntakeResult where
  classification : UrgencyType
  confidence : Int
  rtype : String
  message : Str
  action : String
  priority : String
  completed : Bool
  nextState : ConvState
  notifications : List Notif
deriving DecidableEq, Repr

/-- Side effects dispatched inside `handleEmergencyIntake`: on completion,
the final staff summary email, the compliance log entry, and — when SMS is
enabled and a doctor phone is configured — the urgent doctor SMS with its
own log entry; nothing before completion. -/
def intakeNotifications (env : Env) (completed : Bool) : List Notif :=
  if completed then
    [.staffEmail, .logEntry] ++
      (if env.smsEnabled && env.emergencyDoctorPhone.isSome then
        [.doctorSMSFinal, .logEntry] else [])
  else []

/-- `handleEmergencyIntake` from the source: defaults the step to `name` and
the collected info to `{}`, runs the switch, reports classification
`emergency` with confidence 100, and completes into mode `completed`. -/
def handleEmergencyIntake (env : Env) (patientMessage callerPhone : Str)
    (state : ConvState) : IntakeResult :=
  let o := intakeSwitch patientMessage callerPhone (state.step.getD .name)
    (state.collectedInfo.getD {})
  { classification := .emergency
    confidence := 100
    rtype := "emergency_intake"
    message := o.message
    action := if o.completed then "connect_emergency_doctor" else "continue_intake"
    priority := "immediate"
    completed := o.completed
    nextState := { mode := if o.completed then .completed else .emergency_intake
                   step := some o.nextStep
                   collectedInfo := some o.collectedInfo }
    notifications := intakeNotifications env o.completed }

/-- Per-turn result of `processCall`. -/
structure CallResult where
  classification : UrgencyType
  confidence : Int
  message : Str
  action : String
  nextState : ConvState
  notifications : List Notif
deriving DecidableEq, Repr

/-- Side effects dispatched by a non-intake turn of `processCall`: an
uncertain turn sends the summary email at once (plus the log); an emergency
turn logs and, when SMS is enabled and a doctor phone is configured, sends
the immediate alert SMS with its own log entry; a non-emergency turn only
logs. -/
def turnNotifications (env : Env) (ctype : UrgencyType) : List Notif :=
  match ctype with
  | .uncertain => [.staffEmail, .logEntry]
  | .emergency =>
      [.logEntry] ++
        (if env.smsEnabled && env.emergencyDoctorPhone.isSome then
          [.doctorSMSImmediate, .logEntry] else [])
  | .non_emergency => [.logEntry]

/-- `processCall` from the source: an in-progress emergency intake bypasses
the classifier entirely; otherwise classify, extract, respond, and dispatch
the per-classification notifications.  The next conversation state is the
response's attached state or `{}`. -/
def processCall (env : Env) (patientMessage callerPhone : Str)
    (conversationState : ConvState) : CallResult :=
  if conversationState.mode = .emergency_intake then
    let r := handleEmergencyIntake env patientMessage callerPhone conversationState
    { classification := r.classification
      confidence := r.confidence
      message := r.message
      action := r.action
      nextState := r.nextState
      notifications := r.notifications }
  else
    let classification := classifyUrgency patientMessage
    let extractedInfo := extractCallInformation patientMessage classification.type
    let response := generateReceptionistResponse classification extractedInfo env.practiceName
    { classification := classification.type
      confidence := classification.confidence
      message := response.message
      action := response.action
      nextState := response.convState.getD {}
      notifications := turnNotifications env classification.type }

/-- Multi-turn driver: one `processCall` webhook round-trip per utterance,
accumulating dispatched side effects. -/
def runCall (env : Env) (callerPhone : Str) : ConvState → List Str → ConvState × List Notif
  | s, [] => (s, [])
  | s, u :: us =>
      let r := processCall env u callerPhone s
      let rest := runCall env callerPhone r.nextState us
      (rest.1, r.notifications ++ rest.2)

/-! Serialization of the conversation state round-tripped through the
gather-callback URL (`step` query value plus JSON-encoded collected info). -/

/-- JSON values (only the shapes this state round-trip produces). -/
inductive Json
  | jstr (s : Str)
  | jobj (fields : List (String × Json))

/-- Wire name of a step. -/
def stepName : Step → String
  | .name => "name"
  | .phone => "phone"
  | .description => "description"
  | .complete => "complete"

/-- Modelled from the spec: the `/webhook/emergency-intake` handler (absent
from `src/`; only its URL generator is present) parses the `step` query
value back into an intake step. -/
def parseStep (s : String) : Step :=
  if s = "phone" then .phone
  else if s = "description" then .description
  else if s = "complete" then .complete
  else .name

/-- `JSON.stringify(collectedInfo)`: only the fields that were collected,
in insertion order. -/
def encodeCollected (ci : CollectedInfo) : Json :=
  .jobj ((match ci.name with | some v => [("name", Json.jstr v)] | none => [])
    ++ (match ci.phone with | some v => [("phone", Json.jstr v)] | none => [])
    ++ (match ci.description with | some v => [("description", Json.jstr v)] | none => [])
    ++ (match ci.emotionalTone with | some v => [("emotionalTone", Json.jstr v)] | none => []))

/-- String field lookup in a decoded JSON object. -/
def jstrField (j : Json) (k : String) : Option Str :=
  match j with
  | .jobj fields =>
      match fields.find? (fun f => f.1 == k) with
      | some (_, .jstr v) => some v
      | _ => none
  | _ => none

/-- Modelled from the spec: the `/webhook/emergency-intake` handler (absent
from `src/`) decodes the query-string `step` and the JSON-encoded
`collectedInfo` back into the `CallConversationState` it resumes with. -/
def decodeState (stepStr : String) (info : Json) : ConvState :=
  { mode := .emergency_intake
    step := some (parseStep stepStr)
    collectedInfo := some
      { name := jstrField info "name"
        phone := jstrField info "phone"
        description := jstrField info "description"
        emotionalTone := jstrField info "emotionalTone" } }

/-- Serialization performed by `generateEmergencyTwiML`: the next step name
and the JSON of the collected info, placed in the gather action URL. -/
def encodeState (s : ConvState) : String × Json :=
  (stepName (s.step.getD .name), encodeCollected (s.collectedInfo.getD {}))

/-! Spec-side definitions (for refinement comparison) and proof helpers. -/

/-- Classification thresholds exactly as the spec words them: explicit
match or score at least 40 gives emergency; else score at least 20 or zero
recorded reasons gives uncertain; else non-emergency. -/
def spec_classificationType (explicitMatched : Bool) (score : Int)
    (reasonCount : Nat) : UrgencyType :=
  if explicitMatched = true ∨ score ≥ 40 then .emergency
  else if score ≥ 20 ∨ reasonCount = 0 then .uncertain
  else .non_emergency

/-- Confidence as the spec words it: the raw score clamped to [0, 100]. -/
def spec_clampConfidence (score : Int) : Int := max 0 (min 100 score)

/-- Whether any explicit-emergency phrase matched the normalized text. -/
def explicitMatchedB (u : Str) : Bool :=
  decide (0 < (catMatches DENTAL_EMERGENCY_KEYWORDS.explicit_emergency (messageTextOf u)).length)

/-- First character exists and is not whitespace. -/
def headNotWs : Str → Bool
  | [] => false
  | c :: _ => !isWspace c

/-- Key/value growth between two collected-info records: every field
present on the left is still present with the same value on the right. -/
def ciGrows (a b : CollectedInfo) : Prop :=
  (∀ v, a.name = some v → b.name = some v) ∧
  (∀ v, a.phone = some v → b.phone = some v) ∧
  (∀ v, a.description = some v → b.description = some v) ∧
  (∀ v, a.emotionalTone = some v → b.emotionalTone = some v)

/-- Concrete environment with SMS notifications enabled and a doctor phone
configured. -/
def envSMS : Env := ⟨true, some (str "+15550001111"), str "Clinic"⟩

/-- Concrete environment with SMS notifications disabled. -/
def envNoSMS : Env := ⟨false, none, str "Clinic"⟩

/-- Concrete caller-ID number used in scenario runs. -/
def callerP : Str := str "+13135550000"

/-- Concrete intake state at the description step. -/
def descState : ConvState :=
  { mode := .emergency_intake, step := some .description, collectedInfo := some {} }

/-! Helper lemmas about the substring machinery. -/

theorem startsList_iff (n : Str) : ∀ h : Str, startsList n h = true ↔ ∃ t, h = n ++ t := by
  induction n with
  | nil => intro h; simp [startsList]
  | cons a as ih =>
      intro h
      cases h with
      | nil =>
          simp only [startsList, List.cons_append]
          constructor
          · intro hx; cases hx
          · rintro ⟨t, ht⟩; cases ht
      | cons b bs =>
          simp only [startsList, Bool.and_eq_true, beq_iff_eq, ih, List.cons_append]
          constructor
          · rintro ⟨rfl, t, rfl⟩; exact ⟨t, rfl⟩
          · rintro ⟨t, ht⟩
            injection ht with h1 h2
            exact ⟨h1.symm, t, h2⟩

theorem containsSub_iff (n : Str) : ∀ hay : Str,
    containsSub hay n = true ↔ ∃ p t, hay = p ++ n ++ t := by
  intro hay
  induction hay with
  | nil =>
      simp only [containsSub, startsList_iff]
      constructor
      · rintro ⟨t, ht⟩; exact ⟨[], t, by simpa using ht⟩
      · rintro ⟨p, t, hpt⟩
        rcases List.append_eq_nil.mp hpt.symm with ⟨h1, h2⟩
        rcases List.append_eq_nil.mp h1 with ⟨h3, h4⟩
        exact ⟨[], by simp [h4]⟩
  | cons c rest ih =>
      simp only [containsSub, Bool.or_eq_true, startsList_iff, ih]
      constructor
      · rintro (⟨t, ht⟩ | ⟨p, t, hpt⟩)
        · exact ⟨[], t, by simpa using ht⟩
        · exact ⟨c :: p, t, by simp [hpt]⟩
      · rintro ⟨p, t, hpt⟩
        cases p with
        | nil => exact Or.inl ⟨t, by simpa using hpt⟩
        | cons c2 p2 =>
            injection hpt with h1 h2
            exact Or.inr ⟨p2, t, h2⟩

theorem startsList_self_append (n t : Str) : startsList n (n ++ t) = true :=
  (startsList_iff n (n ++ t)).mpr ⟨t, rfl⟩

theorem dropWhile_append_cases (f : Char → Bool) (p : Str) : ∀ q : Str,
    List.dropWhile f (p ++ q) = List.dropWhile f p ++ q ∨
    List.dropWhile f (p ++ q) = List.dropWhile f q := by
  induction p with
  | nil => intro q; right; rfl
  | cons c p2 ih =>
      intro q
      by_cases hc : f c
      · rcases ih q with h | h
        · left; simpa [List.dropWhile, hc] using h
        · right; simpa [List.dropWhile, hc] using h
      · left; simp [List.dropWhile, hc]

theorem dropWhile_of_head_neg (f : Char → Bool) (c : Char) (cs q : Str)
    (hc : f c = false) :
    List.dropWhile f ((c :: cs) ++ q) = (c :: cs) ++ q := by
  simp [List.dropWhile, hc]

theorem dropWhile_mid (f : Char → Bool) (c : Char) (cs : Str) (hc : f c = false)
    (p t : Str) :
    ∃ p1, List.dropWhile f (p ++ (c :: cs) ++ t) = p1 ++ (c :: cs) ++ t := by
  rcases dropWhile_append_cases f p ((c :: cs) ++ t) with h | h
  · exact ⟨List.dropWhile f p, by simpa [List.append_assoc] using h⟩
  · refine ⟨[], ?_⟩
    have h2 := dropWhile_of_head_neg f c cs t hc
    simp only [List.append_assoc] at h ⊢
    rw [h, h2]
    rfl

/-- Trimming the haystack preserves occurrence of a needle whose first and
last characters are not whitespace. -/
theorem containsSub_trim (hay n : Str) (h1 : containsSub hay n = true)
    (h2 : headNotWs n = true) (h3 : headNotWs n.reverse = true) :
    containsSub (trimStr hay) n = true := by
  obtain ⟨p, t, hpt⟩ := (containsSub_iff n hay).mp h1
  cases n with
  | nil => cases h2
  | cons c cs =>
      have hc : isWspace c = false := by
        simpa [headNotWs] using h2
      obtain ⟨p1, hp1⟩ := dropWhile_mid isWspace c cs hc p t
      rcases hrev : (c :: cs).reverse with _ | ⟨d, ds⟩
      · exact absurd (congrArg List.length hrev) (by simp)
      · have hd : isWspace d = false := by
          rw [hrev] at h3
          simpa [headNotWs] using h3
        have hrevfull : (List.dropWhile isWspace hay).reverse
            = t.reverse ++ (d :: ds) ++ p1.reverse := by
          rw [hpt, hp1, ← hrev]
          simp [List.reverse_append, List.append_assoc]
        obtain ⟨q, hq⟩ := dropWhile_mid isWspace d ds hd t.reverse p1.reverse
        apply (containsSub_iff (c :: cs) (trimStr hay)).mpr
        refine ⟨p1, q.reverse, ?_⟩
        unfold trimStr
        rw [hpt, hp1] at hrevfull ⊢
        rw [hrevfull, hq, ← hrev]
        simp [List.reverse_append, List.append_assoc]

/-! Claim theorems. -/

/-- C1: every utterance that contains (case-insensitively) at least one
phrase of the explicit-emergency lexicon category classifies as type
`emergency`, regardless of the rest of the utterance and of the total
score. -/
theorem C1_explicit_short_circuit (u : Str)
    (h : ∃ kw ∈ DENTAL_EMERGENCY_KEYWORDS.explicit_emergency,
      containsSub (lowerStr u) kw = true) :
    (classifyUrgency u).type = .emergency := by
  obtain ⟨kw, hmem, hsub⟩ := h
  have hshape : ∀ kw ∈ DENTAL_EMERGENCY_KEYWORDS.explicit_emergency,
      headNotWs kw = true ∧ headNotWs kw.reverse = true := by decide
  obtain ⟨hh, hr⟩ := hshape kw hmem
  have hsub2 : containsSub (messageTextOf u) kw = true :=
    containsSub_trim (lowerStr u) kw hsub hh hr
  have hmem2 : kw ∈ catMatches DENTAL_EMERGENCY_KEYWORDS.explicit_emergency (messageTextOf u) :=
    List.mem_filter.mpr ⟨hmem, hsub2⟩
  have hlen : (catMatches DENTAL_EMERGENCY_KEYWORDS.explicit_emergency (messageTextOf u)).length > 0 :=
    List.length_pos.mpr (List.ne_nil_of_mem hmem2)
  have hty : (classifyUrgency u).type =
      if rawScore u ≥ 40 ∨
          (catMatches DENTAL_EMERGENCY_KEYWORDS.explicit_emergency (messageTextOf u)).length > 0 then
        UrgencyType.emergency
      else if rawScore u ≥ 20 ∨ (reasonsOf u).length = 0 then .uncertain
      else .non_emergency := rfl
  rw [hty, if_pos (Or.inr hlen)]

/-- Witness for C1: the utterance "This is an Emergency, just a routine
cleaning question" contains an explicit-emergency phrase and classifies as
emergency. -/
theorem C1_explicit_short_circuit_witness :
    (∃ kw ∈ DENTAL_EMERGENCY_KEYWORDS.explicit_emergency,
      containsSub (lowerStr (str "This is an Emergency, just a routine cleaning question")) kw = true) ∧
    (classifyUrgency (str "This is an Emergency, just a routine cleaning question")).type = .emergency :=
  ⟨⟨str "emergency", by decide, by decide⟩,
   C1_explicit_short_circuit _ ⟨str "emergency", by decide, by decide⟩⟩

/-- C2 counterexample: on the empty utterance the classifier returns type
`uncertain` (the zero-reasons branch), not `non_emergency` as claimed. -/
theorem C2_empty_input_counterexample :
    (classifyUrgency (str "")).type = .uncertain ∧
    (classifyUrgency (str "")).type ≠ .non_emergency ∧
    (classifyUrgency (str "")).confidence = 0 := by decide

/-- C2 amended: for every utterance whose lowercased, trimmed text is
empty, classifyUrgency (a total function over strings) returns type
`uncertain` with confidence 0 — the deliberate zero-reasons fail-safe
branch.  (Non-string inputs are outside the string embedding; the source
would throw on them since it calls `toLowerCase` unguarded.) -/
theorem C2_blank_input_uncertain (u : Str) (h : messageTextOf u = []) :
    (classifyUrgency u).type = .uncertain ∧ (classifyUrgency u).confidence = 0 := by
  have hsc : rawScore u = 0 := by
    unfold rawScore
    rw [h]
    decide
  have hre : reasonsOf u = [] := by
    unfold reasonsOf
    rw [h]
    decide
  constructor
  · have hty : (classifyUrgency u).type =
        if rawScore u ≥ 40 ∨
            (catMatches DENTAL_EMERGENCY_KEYWORDS.explicit_emergency (messageTextOf u)).length > 0 then
          UrgencyType.emergency
        else if rawScore u ≥ 20 ∨ (reasonsOf u).length = 0 then .uncertain
        else .non_emergency := rfl
    rw [hty, hsc, h, hre]
    decide
  · have hc : (classifyUrgency u).confidence = min 100 (max 0 (rawScore u)) := rfl
    rw [hc, hsc]
    decide

/-- Witness for C2 (amended) at the empty utterance. -/
theorem C2_blank_input_uncertain_witness :
    messageTextOf (str "") = [] ∧
    (classifyUrgency (str "")).type = .uncertain ∧
    (classifyUrgency (str "")).confidence = 0 :=
  ⟨by decide, C2_blank_input_uncertain (str "") (by decide)⟩

/-- C3: for every utterance the classifier's type agrees with the spec's
threshold table (emergency when score at least 40 or an explicit phrase
matched; else uncertain when score at least 20 or no reasons were
recorded; else non-emergency) and its confidence is the raw score clamped
to [0, 100]. -/
theorem C3_thresholds_and_clamp (u : Str) :
    (classifyUrgency u).type
      = spec_classificationType (explicitMatchedB u) (rawScore u) (reasonsOf u).length ∧
    (classifyUrgency u).confidence = spec_clampConfidence (rawScore u) := by
  constructor
  · have hty : (classifyUrgency u).type =
        if rawScore u ≥ 40 ∨
            (catMatches DENTAL_EMERGENCY_KEYWORDS.explicit_emergency (messageTextOf u)).length > 0 then
          UrgencyType.emergency
        else if rawScore u ≥ 20 ∨ (reasonsOf u).length = 0 then .uncertain
        else .non_emergency := rfl
    rw [hty]
    unfold spec_classificationType explicitMatchedB
    by_cases h1 : rawScore u ≥ 40 <;>
      by_cases h2 :
        (catMatches DENTAL_EMERGENCY_KEYWORDS.explicit_emergency (messageTextOf u)).length > 0 <;>
      simp [h1, h2]
  · have hc : (classifyUrgency u).confidence = min 100 (max 0 (rawScore u)) := rfl
    rw [hc]
    unfold spec_clampConfidence
    omega

/-- C5: from the intake entry state, exactly three advances reach
`complete` (name, then phone, then description, each advance moving exactly
one step forward and only the third completing), the collected info only
ever gains keys along the run with every present key keeping its value,
and in general a step never regresses: every advance from a non-complete
step moves exactly one step forward and the complete step stays put. -/
theorem C5_intake_monotone (env : Env) (u1 u2 u3 p : Str) :
    (let r1 := handleEmergencyIntake env u1 p intakeStartState
     let r2 := handleEmergencyIntake env u2 p r1.nextState
     let r3 := handleEmergencyIntake env u3 p r2.nextState
     r1.nextState.step = some .phone ∧ r1.completed = false ∧
     r2.nextState.step = some .description ∧ r2.completed = false ∧
     r3.nextState.step = some .complete ∧ r3.completed = true ∧
     ciGrows (intakeStartState.collectedInfo.getD {}) (r1.nextState.collectedInfo.getD {}) ∧
     ciGrows (r1.nextState.collectedInfo.getD {}) (r2.nextState.collectedInfo.getD {}) ∧
     ciGrows (r2.nextState.collectedInfo.getD {}) (r3.nextState.collectedInfo.getD {})) ∧
    (∀ s : ConvState,
      stepNat ((handleEmergencyIntake env u1 p s).nextState.step.getD .name)
        = if s.step.getD .name = .complete then stepNat .complete
          else stepNat (s.step.getD .name) + 1) := by
  constructor
  · simp [handleEmergencyIntake, intakeSwitch, intakeStartState, ciGrows]
  · intro s
    rcases hs : s.step with _ | st
    · simp [handleEmergencyIntake, intakeSwitch, hs, stepNat]
    · cases st <;> simp [handleEmergencyIntake, intakeSwitch, hs, stepNat]

/-- C6 counterexample: feeding Scenario D's utterances through the intake
stores the phone as the raw matched text "313-555-0199", not the
separator-stripped "3135550199" the claim states. -/
theorem C6_phone_not_normalized :
    (let r1 := handleEmergencyIntake envNoSMS (str "John Smith") callerP intakeStartState
     let r2 := handleEmergencyIntake envNoSMS (str "313-555-0199") callerP r1.nextState
     let r3 := handleEmergencyIntake envNoSMS (str "my tooth was knocked out") callerP r2.nextState
     (r3.nextState.collectedInfo.getD {}).phone = some (str "313-555-0199") ∧
     (r3.nextState.collectedInfo.getD {}).phone ≠ some (str "3135550199")) := by decide

/-- C6 amended: the Scenario D run reaches `complete` with name
"John Smith", description "my tooth was knocked out", a non-empty
emotional tone, and the phone stored as the raw matched text
"313-555-0199" (the code keeps `match[0]` verbatim, separators
included). -/
theorem C6_scenarioD_run :
    (let r1 := handleEmergencyIntake envNoSMS (str "John Smith") callerP intakeStartState
     let r2 := handleEmergencyIntake envNoSMS (str "313-555-0199") callerP r1.nextState
     let r3 := handleEmergencyIntake envNoSMS (str "my tooth was knocked out") callerP r2.nextState
     let ci := r3.nextState.collectedInfo.getD {}
     r3.nextState.step = some .complete ∧ r3.completed = true ∧
     ci.name = some (str "John Smith") ∧
     ci.phone = some (str "313-555-0199") ∧
     ci.description = some (str "my tooth was knocked out") ∧
     ci.emotionalTone = some (str "Calm and composed - routine inquiry tone") ∧
     str "Calm and composed - routine inquiry tone" ≠ []) := by decide

/-- C7 counterexample: the utterance "severe pain" does fragment-match
unrelated categories: the fragment keyword "severe" matches both the
explicit-emergency and the emotional-distress lexicons (matching is raw
substring inclusion), contrary to the claim that it counts only under
severe_pain. -/
theorem C7_fragment_match_counterexample :
    catMatches DENTAL_EMERGENCY_KEYWORDS.severe_pain (messageTextOf (str "severe pain"))
      = [str "severe pain"] ∧
    catMatches DENTAL_EMERGENCY_KEYWORDS.explicit_emergency (messageTextOf (str "severe pain"))
      = [str "severe"] ∧
    catMatches EMOTIONAL_DISTRESS_INDICATORS (messageTextOf (str "severe pain"))
      = [str "severe"] := by decide

/-- C7 amended: "severe pain" is counted once under severe_pain (+30) but,
because matching is substring-based, the fragment "severe" also counts
once under explicit_emergency (+50, short-circuiting the type to
emergency) and once under emotional distress (+15): total score 95,
exactly those three reasons. -/
theorem C7_severe_pain_fragments :
    (classifyUrgency (str "severe pain")).type = .emergency ∧
    (classifyUrgency (str "severe pain")).confidence = 95 ∧
    (classifyUrgency (str "severe pain")).reasons =
      ["Explicit emergency declaration detected", "Severe pain indicators detected",
       "Emotional distress detected"] := by decide

/-- C4 counterexample: with SMS notifications enabled and a doctor phone
configured, a call whose single utterance classifies as emergency and then
hangs up (never reaching `completed`) has already dispatched a
doctor-facing notification: the immediate emergency alert SMS. -/
theorem C4_immediate_sms_counterexample :
    (runCall envSMS callerP {} [str "i have a dental emergency"]).1.mode ≠ .completed ∧
    Notif.doctorSMSImmediate ∈ (runCall envSMS callerP {} [str "i have a dental emergency"]).2 ∧
    doctorFacing .doctorSMSImmediate = true := by decide

/-- C4 amended: a completing intake turn always dispatches the staff
summary email (a doctor-facing channel); an intake turn that does not
complete dispatches nothing; the final doctor SMS is sent only by a
completing turn; and the only doctor-facing notification possible before
completion on an emergency call is the immediate alert SMS, which requires
SMS notifications enabled, a configured doctor phone, and an utterance
classifying as emergency. -/
theorem C4_notification_gating (env : Env) (u p : Str) (s : ConvState) :
    (s.mode = .emergency_intake →
      ((processCall env u p s).nextState.mode = .completed →
        Notif.staffEmail ∈ (processCall env u p s).notifications) ∧
      ((processCall env u p s).nextState.mode ≠ .completed →
        (processCall env u p s).notifications = [])) ∧
    (Notif.doctorSMSFinal ∈ (processCall env u p s).notifications →
      (processCall env u p s).nextState.mode = .completed) ∧
    (Notif.doctorSMSImmediate ∈ (processCall env u p s).notifications →
      env.smsEnabled = true ∧ env.emergencyDoctorPhone.isSome = true ∧
      (classifyUrgency u).type = .emergency) := by
  by_cases hm : s.mode = .emergency_intake
  · by_cases hc : (intakeSwitch u p (s.step.getD .name) (s.collectedInfo.getD {})).completed
    · refine ⟨fun _ => ⟨fun _ => ?_, fun hne => absurd ?_ hne⟩, fun _ => ?_, fun hmem => ?_⟩
      · simp [processCall, hm, handleEmergencyIntake, intakeNotifications, hc]
      · simp [processCall, hm, handleEmergencyIntake, hc]
      · simp [processCall, hm, handleEmergencyIntake, hc]
      · exfalso
        by_cases he : env.smsEnabled && env.emergencyDoctorPhone.isSome <;>
          simp [processCall, hm, handleEmergencyIntake, intakeNotifications, hc, he] at hmem
    · refine ⟨fun _ => ⟨fun hcm => ?_, fun _ => ?_⟩, fun hmem => ?_, fun hmem => ?_⟩
      · exfalso
        simp [processCall, hm, handleEmergencyIntake, hc] at hcm
      · simp [processCall, hm, handleEmergencyIntake, intakeNotifications, hc]
      · exfalso
        simp [processCall, hm, handleEmergencyIntake, intakeNotifications, hc] at hmem
      · exfalso
        simp [processCall, hm, handleEmergencyIntake, intakeNotifications, hc] at hmem
  · refine ⟨fun habs => absurd habs hm, fun hmem => ?_, fun hmem => ?_⟩
    · exfalso
      rcases ht : (classifyUrgency u).type <;>
        by_cases he : env.smsEnabled && env.emergencyDoctorPhone.isSome <;>
          simp [processCall, hm, turnNotifications, ht, he] at hmem
    · rcases ht : (classifyUrgency u).type
      · by_cases he : env.smsEnabled && env.emergencyDoctorPhone.isSome
        · have he2 := he
          rw [Bool.and_eq_true] at he2
          exact ⟨he2.1, he2.2, rfl⟩
        · exfalso
          simp [processCall, hm, turnNotifications, ht, he] at hmem
      · exfalso
        simp [processCall, hm, turnNotifications, ht] at hmem
      · exfalso
        simp [processCall, hm, turnNotifications, ht] at hmem

/-- Witness for C4 (amended): a completing intake turn dispatches the
staff email. -/
theorem C4_notification_gating_witness :
    Notif.staffEmail ∈ (processCall envSMS (str "my tooth hurts") callerP descState).notifications :=
  ((C4_notification_gating envSMS (str "my tooth hurts") callerP descState).1 rfl).1 (by decide)

/-- Step names decode back to the same step. -/
theorem parseStep_stepName (st : Step) : parseStep (stepName st) = st := by
  cases st <;> decide

/-- Decoding an encoded collected-info record restores every field. -/
theorem decode_encode_ci (ci : CollectedInfo) :
    jstrField (encodeCollected ci) "name" = ci.name ∧
    jstrField (encodeCollected ci) "phone" = ci.phone ∧
    jstrField (encodeCollected ci) "description" = ci.description ∧
    jstrField (encodeCollected ci) "emotionalTone" = ci.emotionalTone := by
  rcases ci with ⟨n, p, d, e⟩
  cases n <;> cases p <;> cases d <;> cases e <;>
    simp [encodeCollected, jstrField, List.find?]

/-- C8: serializing the conversation state to the step string and the JSON
collected info, deserializing it, and advancing the intake yields exactly
the same result (next state, message, completed flag and all) as advancing
the original in-memory state. -/
theorem C8_serialize_roundtrip (env : Env) (u p : Str) (s : ConvState) :
    handleEmergencyIntake env u p (decodeState (encodeState s).1 (encodeState s).2)
      = handleEmergencyIntake env u p s := by
  have h1 : (decodeState (encodeState s).1 (encodeState s).2).step.getD .name
      = s.step.getD .name := by
    rcases hs : s.step with _ | st
    · simp [decodeState, encodeState, hs, parseStep_stepName]
    · simp [decodeState, encodeState, hs, parseStep_stepName]
  have h2 : (decodeState (encodeState s).1 (encodeState s).2).collectedInfo.getD {}
      = s.collectedInfo.getD {} := by
    rcases hc : s.collectedInfo with _ | ci
    · simp [decodeState, encodeState, hc, encodeCollected, jstrField, List.find?]
    · obtain ⟨e1, e2, e3, e4⟩ := decode_encode_ci ci
      simp only [decodeState, encodeState, hc, Option.getD_some]
      rw [CollectedInfo.mk.injEq]
      exact ⟨e1, e2, e3, e4⟩
  unfold handleEmergencyIntake
  rw [h1, h2]

/-- C9 counterexample: for an utterance that classifies as emergency and
from which a name is extracted, the response message is the fixed intake
kickoff, not personalized with the name as a prefix. -/
theorem C9_emergency_not_personalized :
    (extractCallInformation (str "It\x27s an emergency! My name is John") .emergency).name
      = some (str "John") ∧
    (classifyUrgency (str "It\x27s an emergency! My name is John")).type = .emergency ∧
    startsList (str "John")
      (generateReceptionistResponse
        (classifyUrgency (str "It\x27s an emergency! My name is John"))
        (extractCallInformation (str "It\x27s an emergency! My name is John") .emergency)
        (str "Clinic")).message = false := by decide

/-- C9 amended: the response generator is a pure mapping from the
classification type — emergency yields the fixed intake-kickoff message
asking for the caller's name with priority immediate (not personalized),
uncertain yields the clarifying question with priority medium, and
non-emergency yields the scheduling message with priority normal — and for
the two non-emergency types a present, nonempty extracted name prefixes
the spoken message. -/
theorem C9_response_mapping (cls : Classification) (info : ExtractedInfo) (pn : Str) :
    (cls.type = .emergency →
      (generateReceptionistResponse cls info pn).priority = "immediate" ∧
      (generateReceptionistResponse cls info pn).action = "start_emergency_intake" ∧
      (generateReceptionistResponse cls info pn).convState = some intakeStartState ∧
      (generateReceptionistResponse cls info pn).message
        = str "I understand this is a dental emergency. I need to collect some quick information before connecting you to our on-call doctor. First, can you please tell me your full name?") ∧
    (cls.type = .uncertain →
      (generateReceptionistResponse cls info pn).priority = "medium" ∧
      (generateReceptionistResponse cls info pn).action = "request_clarification" ∧
      (generateReceptionistResponse cls info pn).message
        = nameTagOf info.name ++ str "thanks for explaining. Just to be sure, would you say this needs urgent attention right now, or is this something we can address with a regular appointment?") ∧
    (cls.type = .non_emergency →
      (generateReceptionistResponse cls info pn).priority = "normal" ∧
      (generateReceptionistResponse cls info pn).action = "schedule_appointment" ∧
      (generateReceptionistResponse cls info pn).message
        = nameTagOf info.name ++ str "thanks for calling " ++ pn
            ++ str ". I can help you schedule an appointment or provide information. What would you like to do?") ∧
    (∀ n, info.name = some n → n ≠ [] → cls.type ≠ .emergency →
      startsList (n ++ str ", ") (generateReceptionistResponse cls info pn).message = true) := by
  rcases ht : cls.type
  · refine ⟨fun _ => ?_, fun habs => absurd habs (by decide),
      fun habs => absurd habs (by decide), fun n hn hne habs => absurd rfl habs⟩
    simp [generateReceptionistResponse, ht]
  · refine ⟨fun habs => absurd habs (by decide), fun _ => ?_,
      fun habs => absurd habs (by decide), fun n hn hne _ => ?_⟩
    · simp [generateReceptionistResponse, ht]
    · have hempty : n.isEmpty = false := by
        cases n
        · exact absurd rfl hne
        · rfl
      have hmsg : (generateReceptionistResponse cls info pn).message
          = (n ++ str ", ") ++ str "thanks for explaining. Just to be sure, would you say this needs urgent attention right now, or is this something we can address with a regular appointment?" := by
        simp [generateReceptionistResponse, ht, nameTagOf, hn, hempty]
      rw [hmsg]
      exact startsList_self_append _ _
  · refine ⟨fun habs => absurd habs (by decide),
      fun habs => absurd habs (by decide), fun _ => ?_, fun n hn hne _ => ?_⟩
    · simp [generateReceptionistResponse, ht]
    · have hempty : n.isEmpty = false := by
        cases n
        · exact absurd rfl hne
        · rfl
      have hmsg : (generateReceptionistResponse cls info pn).message
          = (n ++ str ", ") ++ (str "thanks for calling " ++ pn
              ++ str ". I can help you schedule an appointment or provide information. What would you like to do?") := by
        simp [generateReceptionistResponse, ht, nameTagOf, hn, hempty]
      rw [hmsg]
      exact startsList_self_append _ _

/-- Witness for C9 (amended) at concrete inputs: uncertain response with a
present name is personalized and carries priority medium; emergency
response carries priority immediate. -/
theorem C9_response_mapping_witness :
    ((generateReceptionistResponse ⟨.uncertain, 20, [], [], []⟩
        ⟨some (str "John"), none, [], none⟩ (str "Clinic")).priority = "medium" ∧
      startsList (str "John, ")
        (generateReceptionistResponse ⟨.uncertain, 20, [], [], []⟩
          ⟨some (str "John"), none, [], none⟩ (str "Clinic")).message = true) ∧
    (generateReceptionistResponse ⟨.emergency, 100, [], [], []⟩
        ⟨some (str "John"), none, [], none⟩ (str "Clinic")).priority = "immediate" :=
  ⟨⟨((C9_response_mapping ⟨.uncertain, 20, [], [], []⟩
        ⟨some (str "John"), none, [], none⟩ (str "Clinic")).2.1 rfl).1,
    (C9_response_mapping ⟨.uncertain, 20, [], [], []⟩
        ⟨some (str "John"), none, [], none⟩ (str "Clinic")).2.2.2
      (str "John") rfl (by decide) (by decide)⟩,
   ((C9_response_mapping ⟨.emergency, 100, [], [], []⟩
        ⟨some (str "John"), none, [], none⟩ (str "Clinic")).1 rfl).1⟩

/-- C10: once the conversation state is in emergency-intake mode, the turn
result reports classification emergency with confidence exactly 100 for
every utterance (the urgency classifier is bypassed), and the next state
stays in intake mode or moves to completed. -/
theorem C10_intake_constant_classification (env : Env) (u p : Str) (s : ConvState)
    (h : s.mode = .emergency_intake) :
    (processCall env u p s).classification = .emergency ∧
    (processCall env u p s).confidence = 100 ∧
    ((processCall env u p s).nextState.mode = .emergency_intake ∨
      (processCall env u p s).nextState.mode = .completed) := by
  refine ⟨?_, ?_, ?_⟩
  · simp [processCall, h, handleEmergencyIntake]
  · simp [processCall, h, handleEmergencyIntake]
  · by_cases hc : (intakeSwitch u p (s.step.getD .name) (s.collectedInfo.getD {})).completed
    · right
      simp [processCall, h, handleEmergencyIntake, hc]
    · left
      simp [processCall, h, handleEmergencyIntake, hc]

/-- Witness for C10: a turn in intake mode whose utterance sounds entirely
routine still reports emergency with confidence 100. -/
theorem C10_intake_constant_classification_witness :
    (processCall envNoSMS (str "just a routine cleaning question") callerP intakeStartState).classification
      = .emergency ∧
    (processCall envNoSMS (str "just a routine cleaning question") callerP intakeStartState).confidence
      = 100 ∧
    ((processCall envNoSMS (str "just a routine cleaning question") callerP intakeStartState).nextState.mode
        = .emergency_intake ∨
      (processCall envNoSMS (str "just a routine cleaning question") callerP intakeStartState).nextState.mode
        = .completed) :=
  C10_intake_constant_classification envNoSMS (str "just a routine cleaning question") callerP
    intakeStartState rfl

end Dental
